import Mathlib

/-!
Formal model of the per-resource reconciliation code of this Terraform
provider repository.  Go strings are modelled as lists of characters;
remote API responses are supplied as explicit environment parameters, and
each orchestrating function returns, next to its diagnostics, the ordered
trace of remote mutation calls it issued.
-/

/-- A Go string, modelled as its list of characters. -/
abbrev GoString := List Char

/-- Convert a Lean string literal to the `GoString` model. -/
def goStr (s : String) : GoString := s.toList

/-! ### Identifier codec: Go `strings.Split` / `fmt.Sprintf` joining on a
single-character delimiter. -/

/-- Go `strings.Split(s, sep)` for a one-character separator `sep`:
splits `s` at every occurrence of `sep`; the empty string splits to `[[]]`. -/
def splitChar (sep : Char) : GoString → List GoString
  | [] => [[]]
  | c :: cs =>
    if c = sep then [] :: splitChar sep cs
    else
      match splitChar sep cs with
      | [] => [[c]]
      | w :: ws => (c :: w) :: ws

/-- Go `strings.Join(parts, sep)` for a one-character separator. -/
def joinChar (sep : Char) : List GoString → GoString
  | [] => []
  | [w] => w
  | w :: ws => w ++ sep :: joinChar sep ws

theorem splitChar_sep_cons (sep : Char) (l : GoString) :
    splitChar sep (sep :: l) = [] :: splitChar sep l := by
  simp [splitChar]

theorem splitChar_append_of_not_mem (sep : Char) :
    ∀ (w l : GoString) (r : GoString) (rs : List GoString), sep ∉ w →
      splitChar sep l = r :: rs → splitChar sep (w ++ l) = (w ++ r) :: rs
  | [], _, _, _, _, h => by simpa using h
  | c :: w', l, r, rs, hmem, h => by
    have hc : c ≠ sep := fun hc => hmem (hc ▸ List.mem_cons_self c w')
    have hw : sep ∉ w' := fun hw => hmem (List.mem_cons_of_mem c hw)
    have ih := splitChar_append_of_not_mem sep w' l r rs hw h
    simp [splitChar, hc, ih]

theorem splitChar_of_not_mem (sep : Char) (w : GoString) (h : sep ∉ w) :
    splitChar sep w = [w] := by
  have := splitChar_append_of_not_mem sep w [] [] [] h (by simp [splitChar])
  simpa using this

/-- Round trip of the delimiter codec: splitting a joined non-empty sequence
of delimiter-free components recovers exactly the components. -/
theorem splitChar_joinChar (sep : Char) :
    ∀ (parts : List GoString), parts ≠ [] → (∀ p ∈ parts, sep ∉ p) →
      splitChar sep (joinChar sep parts) = parts
  | [], h, _ => absurd rfl h
  | [w], _, hf => by
    simpa [joinChar] using splitChar_of_not_mem sep w (hf w (by simp))
  | w :: v :: ws, _, hf => by
    have ih := splitChar_joinChar sep (v :: ws) (by simp)
      (fun p hp => hf p (List.mem_cons_of_mem w hp))
    have hsplit : splitChar sep (sep :: joinChar sep (v :: ws))
        = [] :: v :: ws := by
      rw [splitChar_sep_cons, ih]
    have hw : sep ∉ w := hf w (by simp)
    have := splitChar_append_of_not_mem sep w (sep :: joinChar sep (v :: ws))
      [] (v :: ws) hw hsplit
    simpa [joinChar] using this

/-! ### AWS error model -/

/-- An AWS API error: a provider-defined code plus a message. -/
structure AwsErr where
  code : GoString
  message : GoString
deriving DecidableEq, Repr

/-- `tfawserr.ErrCodeEquals(err, codes...)`: true iff the error is non-nil
and its code equals one of the given codes. -/
def errCodeEquals (e : Option AwsErr) (codes : List GoString) : Bool :=
  match e with
  | none => false
  | some e => codes.contains e.code

/-- Whether `hay` starts with `needle`. -/
def listStartsWith : GoString → GoString → Bool
  | [], _ => true
  | _ :: _, [] => false
  | c :: cs, d :: ds => c == d && listStartsWith cs ds

/-- Go `strings.Contains(hay, needle)`: `needle` occurs in `hay`. -/
def listContainsSub (needle : GoString) : GoString → Bool
  | [] => listStartsWith needle []
  | c :: t => listStartsWith needle (c :: t) || listContainsSub needle t

/-- `tfawserr.ErrMessageContains(err, code, msg)`: true iff the error is
non-nil, its code equals `code` and its message contains `msg`. -/
def errMessageContains (e : Option AwsErr) (code msg : GoString) : Bool :=
  match e with
  | none => false
  | some e => e.code == code && listContainsSub msg e.message

/-! ### API Gateway method response resource (`apigateway` package) -/

/-- `apigateway.ErrCodeNotFoundException`. -/
def ErrCodeNotFoundException : GoString := goStr "NotFoundException"

/-- The stored identifier built by `resourceMethodResponseCreate` (and by the
importer after decoding):
`fmt.Sprintf("agmr-%s-%s-%s-%s", restApiID, resourceID, httpMethod, statusCode)`. -/
def methodResponseCreateID
    (restApiID resourceID httpMethod statusCode : GoString) : GoString :=
  goStr "agmr-" ++ restApiID ++ goStr "-" ++ resourceID ++ goStr "-"
    ++ httpMethod ++ goStr "-" ++ statusCode

/-- Import decode failure: `fmt.Errorf("Unexpected format of ID (%q), ...")`. -/
inductive MRImportErr
  | unexpectedFormat (id : GoString)
deriving DecidableEq, Repr

/-- The resource data produced by the method-response importer: the four
decoded attribute components and the re-encoded stored identifier. -/
structure MethodResponseImportResult where
  restApiId : GoString
  resourceId : GoString
  httpMethod : GoString
  statusCode : GoString
  id : GoString
deriving DecidableEq, Repr

/-- The method-response importer `StateContext`: splits the supplied id on
`"/"`, fails unless there are exactly four non-empty components, sets the
four attributes and re-encodes the stored id in the `agmr-` form. -/
def methodResponseImportStateFunc (id : GoString) :
    Except MRImportErr MethodResponseImportResult :=
  match splitChar '/' id with
  | [a, b, c, d] =>
    if a = [] ∨ b = [] ∨ c = [] ∨ d = [] then
      .error (.unexpectedFormat id)
    else
      .ok ⟨a, b, c, d, methodResponseCreateID a b c d⟩
  | _ => .error (.unexpectedFormat id)

/-- A patch operation handed to `UpdateMethodResponse` (opaque here: the
expansion helpers are outside this file's scope, so operations are supplied
as parameters). -/
abbrev PatchOp := GoString

/-- Remote API Gateway calls issued by the method-response update. -/
inductive MRCall
  | updateMethodResponse (ops : List PatchOp)
deriving DecidableEq, Repr

/-- Method-response diagnostics. -/
inductive MRDiag
  | createErr (e : AwsErr)
  | updateErr (e : AwsErr)
  | readErr (e : AwsErr)
deriving DecidableEq, Repr

/-- `resourceMethodResponseCreate` after a successful remote put: stores the
`agmr-`-encoded identifier. -/
def resourceMethodResponseCreate (putErr : Option AwsErr)
    (restApiID resourceID httpMethod statusCode : GoString) :
    Except MRDiag GoString :=
  match putErr with
  | some e => .error (.createErr e)
  | none => .ok (methodResponseCreateID restApiID resourceID httpMethod statusCode)

/-- Result of `resourceMethodResponseUpdate`: diagnostics plus the trace of
remote update calls issued. -/
structure MRUpdateResult where
  diags : List MRDiag
  calls : List MRCall
deriving DecidableEq, Repr

/-- `resourceMethodResponseUpdate`: builds the patch-operation list from the
changed fields (`response_models`, then `response_parameters`) and issues an
`UpdateMethodResponse` call unconditionally; on success appends the read's
diagnostics. -/
def resourceMethodResponseUpdate
    (hasChangeResponseModels hasChangeResponseParameters : Bool)
    (modelOps paramOps : List PatchOp)
    (updateErr : Option AwsErr) (readDiags : List MRDiag) : MRUpdateResult :=
  let operations :=
    (if hasChangeResponseModels then modelOps else [])
      ++ (if hasChangeResponseParameters then paramOps else [])
  match updateErr with
  | some e => ⟨[.updateErr e], [.updateMethodResponse operations]⟩
  | none => ⟨readDiags, [.updateMethodResponse operations]⟩

/-! ### EC2 VPC endpoint security group association resource (`ec2` package) -/

/-- `errCodeInvalidVPCEndpointIdNotFound`. -/
def errCodeInvalidVPCEndpointIdNotFound : GoString :=
  goStr "InvalidVpcEndpointId.NotFound"

/-- `errCodeInvalidGroupNotFound`. -/
def errCodeInvalidGroupNotFound : GoString := goStr "InvalidGroup.NotFound"

/-- `errCodeInvalidParameter`. -/
def errCodeInvalidParameter : GoString := goStr "InvalidParameter"

/-- The error codes the remote delete call maps to success. -/
def vpceDeleteTolerated : List GoString :=
  [errCodeInvalidVPCEndpointIdNotFound, errCodeInvalidGroupNotFound,
    errCodeInvalidParameter]

/-- The fields of a `DescribeVpcEndpoints` result this resource reads: the
VPC id and the ids of the currently associated security groups. -/
structure VPCEndpoint where
  vpcId : GoString
  groups : List GoString
deriving DecidableEq, Repr

/-- Remote mutation calls (`ModifyVpcEndpoint` with `AddSecurityGroupIds`,
resp. `RemoveSecurityGroupIds`). -/
inductive RemoteCall
  | add (vpcEndpointID securityGroupID : GoString)
  | remove (vpcEndpointID securityGroupID : GoString)
deriving DecidableEq, Repr

/-- Errors returned by the two association helpers, wrapping the AWS error
together with the identifiers (`fmt.Errorf`). -/
inductive GoErr
  | createAssoc (vpcEndpointID securityGroupID : GoString) (e : AwsErr)
  | deleteAssoc (vpcEndpointID securityGroupID : GoString) (e : AwsErr)
deriving DecidableEq, Repr

/-- Diagnostics of the VPC-endpoint association resource (all error
severity). -/
inductive EC2Diag
  | readEndpointErr (vpcEndpointID : GoString) (e : AwsErr)
  | readDefaultSGErr (vpcID : GoString) (e : AwsErr)
  | isDefaultSGErr (securityGroupID vpcID : GoString)
  | noDefaultAssocErr (defaultSecurityGroupID vpcEndpointID : GoString)
  | fromErr (e : GoErr)
  | readAssocErr (vpcEndpointID securityGroupID : GoString) (e : AwsErr)
deriving DecidableEq, Repr

/-- The remote EC2 environment: responses of the lookups and of the two
`ModifyVpcEndpoint` mutations (`none` = call succeeded). -/
structure EC2Env where
  findVPCEndpointByID : GoString → Except AwsErr VPCEndpoint
  findVPCDefaultSecurityGroup : GoString → Except AwsErr GoString
  modifyVpcEndpointAdd : GoString → GoString → Option AwsErr
  modifyVpcEndpointRemove : GoString → GoString → Option AwsErr
  findAssociationExists : GoString → GoString → Option AwsErr

/-- `createVPCEndpointSecurityGroupAssociation`: one `ModifyVpcEndpoint`
call adding the group; a failure is wrapped. Returns the error (if any) and
the issued remote call. -/
def createVPCEndpointSecurityGroupAssociation (env : EC2Env)
    (vpcEndpointID securityGroupID : GoString) :
    Option GoErr × List RemoteCall :=
  match env.modifyVpcEndpointAdd vpcEndpointID securityGroupID with
  | none => (none, [.add vpcEndpointID securityGroupID])
  | some e =>
    (some (.createAssoc vpcEndpointID securityGroupID e),
      [.add vpcEndpointID securityGroupID])

/-- `deleteVPCEndpointSecurityGroupAssociation`: one `ModifyVpcEndpoint`
call removing the group; the not-found / already-absent error codes are
mapped to success, any other failure is wrapped. -/
def deleteVPCEndpointSecurityGroupAssociation (env : EC2Env)
    (vpcEndpointID securityGroupID : GoString) :
    Option GoErr × List RemoteCall :=
  match env.modifyVpcEndpointRemove vpcEndpointID securityGroupID with
  | none => (none, [.remove vpcEndpointID securityGroupID])
  | some e =>
    if e.code ∈ vpceDeleteTolerated then
      (none, [.remove vpcEndpointID securityGroupID])
    else
      (some (.deleteAssoc vpcEndpointID securityGroupID e),
        [.remove vpcEndpointID securityGroupID])

/-- Modelled from the spec: `VPCEndpointSecurityGroupAssociationCreateID`
(not among the given source files) builds the composite identifier by
joining the endpoint and group components with a delimiter. -/
def VPCEndpointSecurityGroupAssociationCreateID
    (vpcEndpointID securityGroupID : GoString) : GoString :=
  joinChar '/' [vpcEndpointID, securityGroupID]

/-- The diagnostics of the trailing read when the resource is new (during
create `IsNewResource` holds, so any lookup error becomes an error
diagnostic). -/
def readDiagsNewResource (env : EC2Env)
    (vpcEndpointID securityGroupID : GoString) : List EC2Diag :=
  match env.findAssociationExists vpcEndpointID securityGroupID with
  | none => []
  | some e => [.readAssocErr vpcEndpointID securityGroupID e]

/-- The result of the create orchestration: the stored identifier (if
`SetId` ran), diagnostics, and the ordered remote mutation trace. -/
structure EC2CreateResult where
  id : Option GoString
  diags : List EC2Diag
  calls : List RemoteCall
deriving DecidableEq, Repr

/-- The tail of `resourceVPCEndpointSecurityGroupAssociationCreate` after
the replacement validation: add the new association, set the identifier,
then (when replacing) delete the default association, then read. -/
def vpceSGAssociationCreateMain (env : EC2Env)
    (vpcEndpointID securityGroupID : GoString)
    (replaceDefaultAssociation : Bool) (defaultSecurityGroupID : GoString) :
    EC2CreateResult :=
  match createVPCEndpointSecurityGroupAssociation env vpcEndpointID securityGroupID with
  | (some e, c₁) => ⟨none, [.fromErr e], c₁⟩
  | (none, c₁) =>
    let newId := VPCEndpointSecurityGroupAssociationCreateID vpcEndpointID securityGroupID
    if replaceDefaultAssociation then
      match deleteVPCEndpointSecurityGroupAssociation env vpcEndpointID defaultSecurityGroupID with
      | (some e, c₂) => ⟨some newId, [.fromErr e], c₁ ++ c₂⟩
      | (none, c₂) =>
        ⟨some newId, readDiagsNewResource env vpcEndpointID securityGroupID, c₁ ++ c₂⟩
    else
      ⟨some newId, readDiagsNewResource env vpcEndpointID securityGroupID, c₁⟩

/-- `resourceVPCEndpointSecurityGroupAssociationCreate`: when replacement of
the default association is requested, first look up the endpoint and the
VPC's default security group and validate (requested group is not the
default; the default is currently associated), failing before any mutation
otherwise; then add-new, set the id, remove-old, read. -/
def resourceVPCEndpointSecurityGroupAssociationCreate (env : EC2Env)
    (vpcEndpointID securityGroupID : GoString)
    (replaceDefaultAssociation : Bool) : EC2CreateResult :=
  if replaceDefaultAssociation then
    match env.findVPCEndpointByID vpcEndpointID with
    | .error e => ⟨none, [.readEndpointErr vpcEndpointID e], []⟩
    | .ok vpcEndpoint =>
      match env.findVPCDefaultSecurityGroup vpcEndpoint.vpcId with
      | .error e => ⟨none, [.readDefaultSGErr vpcEndpoint.vpcId e], []⟩
      | .ok defaultSecurityGroupID =>
        if defaultSecurityGroupID = securityGroupID then
          ⟨none, [.isDefaultSGErr securityGroupID vpcEndpoint.vpcId], []⟩
        else if defaultSecurityGroupID ∈ vpcEndpoint.groups then
          vpceSGAssociationCreateMain env vpcEndpointID securityGroupID true
            defaultSecurityGroupID
        else
          ⟨none, [.noDefaultAssocErr defaultSecurityGroupID vpcEndpointID], []⟩
  else
    vpceSGAssociationCreateMain env vpcEndpointID securityGroupID false (goStr "")

/-- The result of the delete orchestration. -/
structure EC2DeleteResult where
  diags : List EC2Diag
  calls : List RemoteCall
deriving DecidableEq, Repr

/-- `resourceVPCEndpointSecurityGroupAssociationDelete`: when the create
replaced the default association, first look up the endpoint and the VPC's
default security group and add that association back, aborting on any
failure; only then remove the managed association (tolerating
already-absent). -/
def resourceVPCEndpointSecurityGroupAssociationDelete (env : EC2Env)
    (vpcEndpointID securityGroupID : GoString)
    (replaceDefaultAssociation : Bool) : EC2DeleteResult :=
  if replaceDefaultAssociation then
    match env.findVPCEndpointByID vpcEndpointID with
    | .error e => ⟨[.readEndpointErr vpcEndpointID e], []⟩
    | .ok vpcEndpoint =>
      match env.findVPCDefaultSecurityGroup vpcEndpoint.vpcId with
      | .error e => ⟨[.readDefaultSGErr vpcEndpoint.vpcId e], []⟩
      | .ok defaultSecurityGroupID =>
        match createVPCEndpointSecurityGroupAssociation env vpcEndpointID defaultSecurityGroupID with
        | (some e, c₁) => ⟨[.fromErr e], c₁⟩
        | (none, c₁) =>
          match deleteVPCEndpointSecurityGroupAssociation env vpcEndpointID securityGroupID with
          | (some e, c₂) => ⟨[.fromErr e], c₁ ++ c₂⟩
          | (none, c₂) => ⟨[], c₁ ++ c₂⟩
  else
    match deleteVPCEndpointSecurityGroupAssociation env vpcEndpointID securityGroupID with
    | (some e, c) => ⟨[.fromErr e], c⟩
    | (none, c) => ⟨[], c⟩

/-! ### Retry executor (`resource.RetryContext` followed by one direct call) -/

/-- Outcome of the bounded-retry phase (`resource.RetryContext`): success,
a non-retryable error returned as-is, or a timeout after exhausting the
budget on retryable errors. -/
inductive RetryPhaseResult (α : Type)
  | ok (v : α)
  | nonRetryable (e : AwsErr)
  | timedOut
deriving DecidableEq, Repr

/-- The bounded-retry phase. `calls n` is the result of the `n`-th remote
invocation; `retryable` is the per-call-site classifier; `fuel` is the
number of retries the time budget still allows. Returns the outcome and the
list of invocation indices performed, in order. -/
def retryPhase {α : Type} (calls : Nat → Except AwsErr α)
    (retryable : AwsErr → Bool) : Nat → Nat → RetryPhaseResult α × List Nat
  | 0, idx =>
    match calls idx with
    | .ok v => (.ok v, [idx])
    | .error e =>
      if retryable e then (.timedOut, [idx]) else (.nonRetryable e, [idx])
  | f + 1, idx =>
    match calls idx with
    | .ok v => (.ok v, [idx])
    | .error e =>
      if retryable e then
        let r := retryPhase calls retryable f (idx + 1)
        (r.1, idx :: r.2)
      else (.nonRetryable e, [idx])

/-- The two-phase executor of the provisioning-artifact create and update:
the bounded-retry phase, then — exactly when it timed out — one additional
direct invocation whose raw result becomes the operation's result. Returns
the final result and the full ordered list of invocation indices. -/
def retryThenDirect {α : Type} (calls : Nat → Except AwsErr α)
    (retryable : AwsErr → Bool) (fuel : Nat) : Except AwsErr α × List Nat :=
  match retryPhase calls retryable fuel 0 with
  | (.ok v, t) => (.ok v, t)
  | (.nonRetryable e, t) => (.error e, t)
  | (.timedOut, t) => (calls t.length, t ++ [t.length])

theorem retryPhase_timedOut_trace {α : Type} (calls : Nat → Except AwsErr α)
    (retryable : AwsErr → Bool) :
    ∀ (fuel idx : Nat) (t : List Nat),
      retryPhase calls retryable fuel idx = (.timedOut, t) →
      t = List.range' idx (fuel + 1)
  | 0, idx, t, h => by
    unfold retryPhase at h
    cases hc : calls idx with
    | ok v => rw [hc] at h; simp at h
    | error e =>
      rw [hc] at h
      by_cases hr : retryable e
      · simp [hr] at h
        simpa [List.range'] using h.symm
      · simp [hr] at h
  | f + 1, idx, t, h => by
    unfold retryPhase at h
    cases hc : calls idx with
    | ok v => rw [hc] at h; simp at h
    | error e =>
      rw [hc] at h
      by_cases hr : retryable e
      · simp [hr] at h
        obtain ⟨h1, h2⟩ := h
        have ih := retryPhase_timedOut_trace calls retryable f (idx + 1)
          (retryPhase calls retryable f (idx + 1)).2
          (by rw [← h1])
        rw [← h2, ih]
        simp [List.range'_succ]
      · simp [hr] at h

/-! ### Service Catalog provisioning artifact resource -/

/-- `servicecatalog.ErrCodeResourceNotFoundException`. -/
def ErrCodeResourceNotFoundException : GoString :=
  goStr "ResourceNotFoundException"

/-- `servicecatalog.ErrCodeInvalidParametersException`. -/
def ErrCodeInvalidParametersException : GoString :=
  goStr "InvalidParametersException"

/-- The retry classifier used by the provisioning-artifact create and
update call sites: retry exactly the `InvalidParametersException` errors
whose message says the profile does not exist. -/
def provisioningArtifactRetryable (e : AwsErr) : Bool :=
  errMessageContains (some e) ErrCodeInvalidParametersException
    (goStr "profile does not exist")

/-- `ProvisioningArtifactDetail` of the create response; its `Id` is a
nil-able string. -/
structure ProvisioningArtifactDetail where
  id : Option GoString
deriving DecidableEq, Repr

/-- `CreateProvisioningArtifactOutput`; the detail is a nil-able pointer. -/
structure CreateProvisioningArtifactOutput where
  provisioningArtifactDetail : Option ProvisioningArtifactDetail
deriving DecidableEq, Repr

/-- Modelled from the spec: `ProvisioningArtifactID` (not among the given
source files) joins the artifact and product components with a delimiter. -/
def ProvisioningArtifactID (artifactID productID : GoString) : GoString :=
  joinChar ':' [artifactID, productID]

/-- Modelled from the spec: `ProvisioningArtifactParseID` (not among the
given source files) splits the composite identifier by the matching scheme
and fails on a wrong component count or an empty component. -/
def ProvisioningArtifactParseID (id : GoString) :
    Except Unit (GoString × GoString) :=
  match splitChar ':' id with
  | [a, b] => if a = [] ∨ b = [] then .error () else .ok (a, b)
  | _ => .error ()

/-- Provisioning-artifact diagnostics. -/
inductive PADiag
  | createErr (e : AwsErr)
  | emptyResponse
  | parseErr
  | updateErr (e : AwsErr)
  | deleteErr (e : AwsErr)
  | waitDeleteErr (e : AwsErr)
  | readErr (e : AwsErr)
deriving DecidableEq, Repr

/-- Result of the provisioning-artifact create: the stored identifier (if
`SetId` ran) and the diagnostics. -/
structure PACreateResult where
  id : Option GoString
  diags : List PADiag
deriving DecidableEq, Repr

/-- `resourceProvisioningArtifactCreate`: runs the remote create through the
two-phase executor; on success it requires the response, its detail and the
detail's id all to be present, failing with the empty-response error (and
without setting an identifier) otherwise; then sets the composite id and
chains into update (supplied as a continuation yielding its diagnostics). -/
def resourceProvisioningArtifactCreate
    (createCalls : Nat → Except AwsErr (Option CreateProvisioningArtifactOutput))
    (fuel : Nat) (productID : GoString)
    (update : GoString → List PADiag) : PACreateResult :=
  match (retryThenDirect createCalls provisioningArtifactRetryable fuel).1 with
  | .error e => ⟨none, [.createErr e]⟩
  | .ok none => ⟨none, [.emptyResponse]⟩
  | .ok (some output) =>
    match output.provisioningArtifactDetail with
    | none => ⟨none, [.emptyResponse]⟩
    | some detail =>
      match detail.id with
      | none => ⟨none, [.emptyResponse]⟩
      | some artifactId =>
        let newId := ProvisioningArtifactID artifactId productID
        ⟨some newId, update newId⟩

/-- The current values of the updatable provisioning-artifact fields
(`GetOk` yields `none` for an unset/zero field). -/
structure PAData where
  active : Bool
  acceptLanguage : Option GoString
  description : Option GoString
  guidance : Option GoString
  name : Option GoString
deriving DecidableEq, Repr

/-- The `UpdateProvisioningArtifactInput` the update call site builds. -/
structure PAUpdateInput where
  productId : GoString
  provisioningArtifactId : GoString
  active : Bool
  acceptLanguage : Option GoString
  description : Option GoString
  guidance : Option GoString
  name : Option GoString
deriving DecidableEq, Repr

/-- Builds the update input exactly as the source does: the id pair, plus
the current values of `active` and of every optionally-set field. -/
def buildPAUpdateInput (productId artifactId : GoString) (d : PAData) :
    PAUpdateInput :=
  ⟨productId, artifactId, d.active, d.acceptLanguage, d.description,
    d.guidance, d.name⟩

/-- Result of the provisioning-artifact update: diagnostics plus the inputs
of the `UpdateProvisioningArtifact` calls issued, in order. -/
structure PAUpdateResult where
  diags : List PADiag
  updateCallInputs : List PAUpdateInput
deriving DecidableEq, Repr

/-- `resourceProvisioningArtifactUpdate`: only when one of the updatable
fields changed does it parse the id, build the input carrying all current
field values, and run the remote update through the two-phase executor; the
trailing read contributes `readDiags`. -/
def resourceProvisioningArtifactUpdate (hasChanges : Bool) (id : GoString)
    (d : PAData) (updateCalls : Nat → Except AwsErr Unit) (fuel : Nat)
    (readDiags : List PADiag) : PAUpdateResult :=
  if hasChanges then
    match ProvisioningArtifactParseID id with
    | .error _ => ⟨[.parseErr], []⟩
    | .ok (artifactId, productId) =>
      let input := buildPAUpdateInput productId artifactId d
      let r := retryThenDirect updateCalls provisioningArtifactRetryable fuel
      match r.1 with
      | .error e => ⟨[.updateErr e], r.2.map fun _ => input⟩
      | .ok _ => ⟨readDiags, r.2.map fun _ => input⟩
  else ⟨readDiags, []⟩

/-- `resourceProvisioningArtifactDelete`: parse the id, issue the remote
delete, map `ResourceNotFoundException` to success, otherwise surface the
error; on success wait for deletion. -/
def resourceProvisioningArtifactDelete (id : GoString)
    (deleteErr : Option AwsErr) (waitErr : Option AwsErr) : List PADiag :=
  match ProvisioningArtifactParseID id with
  | .error _ => [.parseErr]
  | .ok _ =>
    match deleteErr with
    | some e =>
      if e.code = ErrCodeResourceNotFoundException then []
      else [.deleteErr e]
    | none =>
      match waitErr with
      | some e => [.waitDeleteErr e]
      | none => []

/-! ### Claim theorems -/

/-- C6 counterexample: the stored identifier produced by create for concrete
components `api1/res1/GET/200` is the dash-joined `agmr-` form, and the
importer's `/`-splitting decode rejects it as malformed instead of
recovering the four components. -/
theorem c6_stored_id_not_decoded :
    methodResponseImportStateFunc
        (methodResponseCreateID (goStr "api1") (goStr "res1") (goStr "GET")
          (goStr "200"))
      = .error (.unexpectedFormat
          (methodResponseCreateID (goStr "api1") (goStr "res1") (goStr "GET")
            (goStr "200"))) := by
  rfl

/-- C6 (amended): for every sequence of components free of delimiter
collisions, decoding the encoded identifier recovers exactly the original
components; for the method-response identifier, the importer's `/`-splitting
decode recovers four non-empty slash-free components from their `/`-joined
form — the form the importer accepts — and itself re-encodes them into the
stored `agmr-` identifier; the dash-joined stored form is not the importer's
input format. -/
theorem c6_roundtrip :
    (∀ (parts : List GoString), parts ≠ [] → (∀ p ∈ parts, '/' ∉ p) →
        splitChar '/' (joinChar '/' parts) = parts)
    ∧ ∀ (a b c d : GoString), a ≠ [] → b ≠ [] → c ≠ [] → d ≠ [] →
        '/' ∉ a → '/' ∉ b → '/' ∉ c → '/' ∉ d →
        methodResponseImportStateFunc (joinChar '/' [a, b, c, d])
          = .ok ⟨a, b, c, d, methodResponseCreateID a b c d⟩ := by
  constructor
  · exact fun parts => splitChar_joinChar '/' parts
  · intro a b c d ha hb hc hd fa fb fc fd
    have hsplit : splitChar '/' (joinChar '/' [a, b, c, d]) = [a, b, c, d] :=
      splitChar_joinChar '/' [a, b, c, d] (by simp)
        (by
          intro p hp
          simp only [List.mem_cons, List.not_mem_nil, or_false] at hp
          rcases hp with rfl | rfl | rfl | rfl <;> assumption)
    unfold methodResponseImportStateFunc
    rw [hsplit]
    simp [ha, hb, hc, hd]

/-- C6 witness: the amended round trip at concrete components. -/
theorem c6_roundtrip_w :
    methodResponseImportStateFunc
        (joinChar '/' [goStr "api1", goStr "res1", goStr "GET", goStr "200"])
      = .ok ⟨goStr "api1", goStr "res1", goStr "GET", goStr "200",
          methodResponseCreateID (goStr "api1") (goStr "res1") (goStr "GET")
            (goStr "200")⟩ :=
  c6_roundtrip.2 (goStr "api1") (goStr "res1") (goStr "GET") (goStr "200")
    (by decide) (by decide) (by decide) (by decide)
    (by decide) (by decide) (by decide) (by decide)

/-- C7: for every input string, the method-response import decode fails with
the malformed-identifier error exactly when splitting on `/` yields a
component count other than four or an empty component, and otherwise
succeeds returning the four components (and the re-encoded stored id). -/
theorem c7_decode_characterisation (id : GoString) :
    ((splitChar '/' id).length ≠ 4 ∨ [] ∈ splitChar '/' id →
      methodResponseImportStateFunc id = .error (.unexpectedFormat id))
    ∧ ∀ a b c d : GoString, splitChar '/' id = [a, b, c, d] →
        a ≠ [] → b ≠ [] → c ≠ [] → d ≠ [] →
        methodResponseImportStateFunc id
          = .ok ⟨a, b, c, d, methodResponseCreateID a b c d⟩ := by
  constructor
  · intro h
    unfold methodResponseImportStateFunc
    split
    · rename_i a b c d hs
      rw [hs] at h
      have hemp : a = [] ∨ b = [] ∨ c = [] ∨ d = [] := by
        rcases h with h | h
        · simp at h
        · simpa using h
      rw [if_pos hemp]
    · rfl
  · intro a b c d hs ha hb hc hd
    unfold methodResponseImportStateFunc
    rw [hs]
    simp [ha, hb, hc, hd]

/-- C7 witness: a malformed id (empty component) is rejected, a well-formed
four-component id decodes to its components. -/
theorem c7_decode_characterisation_w :
    methodResponseImportStateFunc (goStr "a//c/d")
      = .error (.unexpectedFormat (goStr "a//c/d"))
    ∧ methodResponseImportStateFunc (goStr "a/b/c/d")
      = .ok ⟨goStr "a", goStr "b", goStr "c", goStr "d",
          methodResponseCreateID (goStr "a") (goStr "b") (goStr "c")
            (goStr "d")⟩ :=
  ⟨(c7_decode_characterisation (goStr "a//c/d")).1 (by decide),
   (c7_decode_characterisation (goStr "a/b/c/d")).2 (goStr "a") (goStr "b")
     (goStr "c") (goStr "d") (by decide) (by decide) (by decide) (by decide)
     (by decide)⟩

/-- C8 counterexample: with no updatable field changed, the method-response
update still issues a remote `UpdateMethodResponse` call (with an empty
patch list), contradicting the claim that no remote update call is made. -/
theorem c8_no_change_still_calls :
    (resourceMethodResponseUpdate false false [goStr "replaceModelOp"]
        [goStr "replaceParamOp"] none []).calls
      = [.updateMethodResponse []] := by
  rfl

/-- C8 (amended): the provisioning-artifact update issues no remote update
call when none of its updatable fields changed, but when any did, every
issued request carries the current values of all updatable fields, not only
the changed ones; the method-response update always issues exactly one
remote update call, whose patch operations cover exactly the changed
fields. -/
theorem c8_update_frame :
    (∀ (id : GoString) (d : PAData) (updateCalls : Nat → Except AwsErr Unit)
        (fuel : Nat) (readDiags : List PADiag),
      (resourceProvisioningArtifactUpdate false id d updateCalls fuel
          readDiags).updateCallInputs = [])
    ∧ (∀ (id : GoString) (d : PAData) (updateCalls : Nat → Except AwsErr Unit)
        (fuel : Nat) (readDiags : List PADiag) (artifactId productId : GoString),
        ProvisioningArtifactParseID id = .ok (artifactId, productId) →
        (resourceProvisioningArtifactUpdate true id d updateCalls fuel
            readDiags).updateCallInputs
          = (retryThenDirect updateCalls provisioningArtifactRetryable
              fuel).2.map fun _ => buildPAUpdateInput productId artifactId d)
    ∧ ∀ (m p : Bool) (modelOps paramOps : List PatchOp) (e : Option AwsErr)
        (rd : List MRDiag),
        (resourceMethodResponseUpdate m p modelOps paramOps e rd).calls
          = [.updateMethodResponse
              ((if m then modelOps else []) ++ (if p then paramOps else []))] := by
  refine ⟨?_, ?_, ?_⟩
  · intro id d updateCalls fuel readDiags
    simp [resourceProvisioningArtifactUpdate]
  · intro id d updateCalls fuel readDiags artifactId productId hparse
    unfold resourceProvisioningArtifactUpdate
    rw [if_pos rfl, hparse]
    cases hres : (retryThenDirect updateCalls provisioningArtifactRetryable fuel).1 with
    | ok v => simp [hres]
    | error e => simp [hres]
  · intro m p modelOps paramOps e rd
    cases e <;> rfl

/-- Concrete field values used by the update witnesses. -/
def paDataW : PAData :=
  ⟨true, some (goStr "en"), some (goStr "desc"), none, some (goStr "name1")⟩

/-- C8 witness: concrete instances of all three amended conjuncts. -/
theorem c8_update_frame_w :
    (resourceProvisioningArtifactUpdate false (goStr "pa-1:prod-1") paDataW
        (fun _ => .ok ()) 1 []).updateCallInputs = []
    ∧ (resourceProvisioningArtifactUpdate true (goStr "pa-1:prod-1") paDataW
        (fun _ => .ok ()) 1 []).updateCallInputs
      = ((retryThenDirect (fun _ => .ok ()) provisioningArtifactRetryable
          1).2.map fun _ => buildPAUpdateInput (goStr "prod-1") (goStr "pa-1") paDataW)
    ∧ (resourceMethodResponseUpdate true false [goStr "modelOp"] [] none []).calls
      = [.updateMethodResponse
          ((if true then [goStr "modelOp"] else []) ++ (if false then [] else []))] :=
  ⟨c8_update_frame.1 (goStr "pa-1:prod-1") paDataW (fun _ => .ok ()) 1 [],
   c8_update_frame.2.1 (goStr "pa-1:prod-1") paDataW (fun _ => .ok ()) 1 []
     (goStr "pa-1") (goStr "prod-1") (by rfl),
   c8_update_frame.2.2 true false [goStr "modelOp"] [] none []⟩

/-- C1: in the replacement scenario with validation passed and the addition
succeeding, create issues the remote mutations in the order add-new then
remove-old (never the reverse), and if the removal fails after the addition
succeeded, create still returns the new identifier as set, with the removal
failure surfaced as the sole separate diagnostic. -/
theorem c1_replacement_order (env : EC2Env) (vpceID sgID : GoString)
    (ep : VPCEndpoint) (defSG : GoString)
    (h1 : env.findVPCEndpointByID vpceID = .ok ep)
    (h2 : env.findVPCDefaultSecurityGroup ep.vpcId = .ok defSG)
    (h3 : defSG ≠ sgID) (h4 : defSG ∈ ep.groups)
    (h5 : env.modifyVpcEndpointAdd vpceID sgID = none) :
    (resourceVPCEndpointSecurityGroupAssociationCreate env vpceID sgID
        true).calls = [.add vpceID sgID, .remove vpceID defSG]
    ∧ ∀ e : AwsErr, env.modifyVpcEndpointRemove vpceID defSG = some e →
        e.code ∉ vpceDeleteTolerated →
        resourceVPCEndpointSecurityGroupAssociationCreate env vpceID sgID true
          = ⟨some (VPCEndpointSecurityGroupAssociationCreateID vpceID sgID),
              [.fromErr (.deleteAssoc vpceID defSG e)],
              [.add vpceID sgID, .remove vpceID defSG]⟩ := by
  constructor
  · cases hrem : env.modifyVpcEndpointRemove vpceID defSG with
    | none =>
      simp [resourceVPCEndpointSecurityGroupAssociationCreate,
        vpceSGAssociationCreateMain, createVPCEndpointSecurityGroupAssociation,
        deleteVPCEndpointSecurityGroupAssociation, h1, h2, h3, h4, h5, hrem]
    | some e =>
      by_cases ht : e.code ∈ vpceDeleteTolerated
      · simp [resourceVPCEndpointSecurityGroupAssociationCreate,
          vpceSGAssociationCreateMain, createVPCEndpointSecurityGroupAssociation,
          deleteVPCEndpointSecurityGroupAssociation, h1, h2, h3, h4, h5, hrem, ht]
      · simp [resourceVPCEndpointSecurityGroupAssociationCreate,
          vpceSGAssociationCreateMain, createVPCEndpointSecurityGroupAssociation,
          deleteVPCEndpointSecurityGroupAssociation, h1, h2, h3, h4, h5, hrem, ht]
  · intro e he hn
    simp [resourceVPCEndpointSecurityGroupAssociationCreate,
      vpceSGAssociationCreateMain, createVPCEndpointSecurityGroupAssociation,
      deleteVPCEndpointSecurityGroupAssociation, h1, h2, h3, h4, h5, he, hn]

/-- Environment of the C1 witness: endpoint and default group resolve, the
add mutation succeeds, the remove mutation fails with a throttling error. -/
def envW1 : EC2Env :=
  ⟨fun _ => .ok ⟨goStr "vpc-1", [goStr "sg-default"]⟩,
   fun _ => .ok (goStr "sg-default"),
   fun _ _ => none,
   fun _ _ => some ⟨goStr "Throttling", goStr "rate exceeded"⟩,
   fun _ _ => none⟩

/-- C1 witness: concrete replacement scenario with a failing removal. -/
theorem c1_replacement_order_w :
    (resourceVPCEndpointSecurityGroupAssociationCreate envW1 (goStr "vpce-1")
        (goStr "sg-2") true).calls
      = [.add (goStr "vpce-1") (goStr "sg-2"),
         .remove (goStr "vpce-1") (goStr "sg-default")]
    ∧ resourceVPCEndpointSecurityGroupAssociationCreate envW1 (goStr "vpce-1")
        (goStr "sg-2") true
      = ⟨some (VPCEndpointSecurityGroupAssociationCreateID (goStr "vpce-1")
            (goStr "sg-2")),
          [.fromErr (.deleteAssoc (goStr "vpce-1") (goStr "sg-default")
            ⟨goStr "Throttling", goStr "rate exceeded"⟩)],
          [.add (goStr "vpce-1") (goStr "sg-2"),
           .remove (goStr "vpce-1") (goStr "sg-default")]⟩ :=
  ⟨(c1_replacement_order envW1 (goStr "vpce-1") (goStr "sg-2")
      ⟨goStr "vpc-1", [goStr "sg-default"]⟩ (goStr "sg-default") rfl rfl
      (by decide) (by decide) rfl).1,
   (c1_replacement_order envW1 (goStr "vpce-1") (goStr "sg-2")
      ⟨goStr "vpc-1", [goStr "sg-default"]⟩ (goStr "sg-default") rfl rfl
      (by decide) (by decide) rfl).2
     ⟨goStr "Throttling", goStr "rate exceeded"⟩ rfl (by decide)⟩

/-- C2: when replacement is requested and the endpoint lookup fails, the
default-group lookup fails, or the default group is not among the endpoint's
current associations, create returns an error having issued no remote
mutation call and without setting an identifier. -/
theorem c2_validation_before_mutation (env : EC2Env) (vpceID sgID : GoString)
    (h : (∃ e, env.findVPCEndpointByID vpceID = .error e)
      ∨ (∃ ep e, env.findVPCEndpointByID vpceID = .ok ep
          ∧ env.findVPCDefaultSecurityGroup ep.vpcId = .error e)
      ∨ (∃ ep defSG, env.findVPCEndpointByID vpceID = .ok ep
          ∧ env.findVPCDefaultSecurityGroup ep.vpcId = .ok defSG
          ∧ defSG ∉ ep.groups)) :
    (resourceVPCEndpointSecurityGroupAssociationCreate env vpceID sgID
        true).calls = []
    ∧ (resourceVPCEndpointSecurityGroupAssociationCreate env vpceID sgID
        true).id = none
    ∧ (resourceVPCEndpointSecurityGroupAssociationCreate env vpceID sgID
        true).diags ≠ [] := by
  rcases h with ⟨e, he⟩ | ⟨ep, e, hep, he⟩ | ⟨ep, defSG, hep, hdef, hmem⟩
  · simp [resourceVPCEndpointSecurityGroupAssociationCreate, he]
  · simp [resourceVPCEndpointSecurityGroupAssociationCreate, hep, he]
  · by_cases hsg : defSG = sgID
    · simp [resourceVPCEndpointSecurityGroupAssociationCreate, hep, hdef, hsg]
    · simp [resourceVPCEndpointSecurityGroupAssociationCreate, hep, hdef,
        hsg, hmem]

/-- Environment of the C2 witness: the default group resolves but is not
among the endpoint's current associations. -/
def envW2 : EC2Env :=
  ⟨fun _ => .ok ⟨goStr "vpc-1", [goStr "sg-other"]⟩,
   fun _ => .ok (goStr "sg-default"),
   fun _ _ => none,
   fun _ _ => none,
   fun _ _ => none⟩

/-- C2 witness: the default group is not associated, so create errors
without any mutation. -/
theorem c2_validation_before_mutation_w :
    (resourceVPCEndpointSecurityGroupAssociationCreate envW2 (goStr "vpce-1")
        (goStr "sg-2") true).calls = []
    ∧ (resourceVPCEndpointSecurityGroupAssociationCreate envW2 (goStr "vpce-1")
        (goStr "sg-2") true).id = none
    ∧ (resourceVPCEndpointSecurityGroupAssociationCreate envW2 (goStr "vpce-1")
        (goStr "sg-2") true).diags ≠ [] :=
  c2_validation_before_mutation envW2 (goStr "vpce-1") (goStr "sg-2")
    (Or.inr (Or.inr ⟨⟨goStr "vpc-1", [goStr "sg-other"]⟩, goStr "sg-default",
      rfl, rfl, by decide⟩))

/-- C3: when create replaced the default association, delete first restores
the default association and only then removes the managed one; if the
restore call fails, delete reports that error and aborts before issuing the
removal call, leaving the managed association in place. -/
theorem c3_delete_restore_order (env : EC2Env) (vpceID sgID : GoString)
    (ep : VPCEndpoint) (defSG : GoString)
    (h1 : env.findVPCEndpointByID vpceID = .ok ep)
    (h2 : env.findVPCDefaultSecurityGroup ep.vpcId = .ok defSG) :
    (env.modifyVpcEndpointAdd vpceID defSG = none →
      (resourceVPCEndpointSecurityGroupAssociationDelete env vpceID sgID
          true).calls = [.add vpceID defSG, .remove vpceID sgID])
    ∧ ∀ e : AwsErr, env.modifyVpcEndpointAdd vpceID defSG = some e →
        resourceVPCEndpointSecurityGroupAssociationDelete env vpceID sgID true
          = ⟨[.fromErr (.createAssoc vpceID defSG e)], [.add vpceID defSG]⟩ := by
  constructor
  · intro hadd
    cases hrem : env.modifyVpcEndpointRemove vpceID sgID with
    | none =>
      simp [resourceVPCEndpointSecurityGroupAssociationDelete,
        createVPCEndpointSecurityGroupAssociation,
        deleteVPCEndpointSecurityGroupAssociation, h1, h2, hadd, hrem]
    | some e =>
      by_cases ht : e.code ∈ vpceDeleteTolerated
      · simp [resourceVPCEndpointSecurityGroupAssociationDelete,
          createVPCEndpointSecurityGroupAssociation,
          deleteVPCEndpointSecurityGroupAssociation, h1, h2, hadd, hrem, ht]
      · simp [resourceVPCEndpointSecurityGroupAssociationDelete,
          createVPCEndpointSecurityGroupAssociation,
          deleteVPCEndpointSecurityGroupAssociation, h1, h2, hadd, hrem, ht]
  · intro e hadd
    simp [resourceVPCEndpointSecurityGroupAssociationDelete,
      createVPCEndpointSecurityGroupAssociation, h1, h2, hadd]

/-- Environment of the C3 witness: the restore (add-back) mutation fails. -/
def envW3 : EC2Env :=
  ⟨fun _ => .ok ⟨goStr "vpc-1", [goStr "sg-2"]⟩,
   fun _ => .ok (goStr "sg-default"),
   fun _ _ => some ⟨goStr "RequestLimitExceeded", goStr "too many requests"⟩,
   fun _ _ => none,
   fun _ _ => none⟩

/-- C3 witness: restore-then-remove order with a succeeding restore
(`envW2`), and abort-before-removal with a failing restore (`envW3`). -/
theorem c3_delete_restore_order_w :
    (resourceVPCEndpointSecurityGroupAssociationDelete envW2 (goStr "vpce-1")
        (goStr "sg-2") true).calls
      = [.add (goStr "vpce-1") (goStr "sg-default"),
         .remove (goStr "vpce-1") (goStr "sg-2")]
    ∧ resourceVPCEndpointSecurityGroupAssociationDelete envW3 (goStr "vpce-1")
        (goStr "sg-2") true
      = ⟨[.fromErr (.createAssoc (goStr "vpce-1") (goStr "sg-default")
            ⟨goStr "RequestLimitExceeded", goStr "too many requests"⟩)],
          [.add (goStr "vpce-1") (goStr "sg-default")]⟩ :=
  ⟨(c3_delete_restore_order envW2 (goStr "vpce-1") (goStr "sg-2")
      ⟨goStr "vpc-1", [goStr "sg-other"]⟩ (goStr "sg-default") rfl rfl).1 rfl,
   (c3_delete_restore_order envW3 (goStr "vpce-1") (goStr "sg-2")
      ⟨goStr "vpc-1", [goStr "sg-2"]⟩ (goStr "sg-default") rfl rfl).2
     ⟨goStr "RequestLimitExceeded", goStr "too many requests"⟩ rfl⟩

/-- C9: when replacement is requested and the requested security group is
itself the VPC's default security group, create fails with that validation
error before issuing any remote mutation call. -/
theorem c9_requested_group_is_default (env : EC2Env) (vpceID sgID : GoString)
    (ep : VPCEndpoint)
    (h1 : env.findVPCEndpointByID vpceID = .ok ep)
    (h2 : env.findVPCDefaultSecurityGroup ep.vpcId = .ok sgID) :
    resourceVPCEndpointSecurityGroupAssociationCreate env vpceID sgID true
      = ⟨none, [.isDefaultSGErr sgID ep.vpcId], []⟩ := by
  simp [resourceVPCEndpointSecurityGroupAssociationCreate, h1, h2]

/-- Environment of the C9 witness: the default group equals the requested
group. -/
def envW9 : EC2Env :=
  ⟨fun _ => .ok ⟨goStr "vpc-1", [goStr "sg-2"]⟩,
   fun _ => .ok (goStr "sg-2"),
   fun _ _ => none,
   fun _ _ => none,
   fun _ _ => none⟩

/-- C9 witness: requesting the default group itself errors with no calls. -/
theorem c9_requested_group_is_default_w :
    resourceVPCEndpointSecurityGroupAssociationCreate envW9 (goStr "vpce-1")
        (goStr "sg-2") true
      = ⟨none, [.isDefaultSGErr (goStr "sg-2") (goStr "vpc-1")], []⟩ :=
  c9_requested_group_is_default envW9 (goStr "vpce-1") (goStr "sg-2")
    ⟨goStr "vpc-1", [goStr "sg-2"]⟩ rfl rfl

/-- C4: a remote delete response reporting the resource already absent is
mapped to success, for the VPC-endpoint association (its three tolerated
codes) and for the provisioning artifact (`ResourceNotFoundException`), so
deleting an already-absent resource twice in a row succeeds both times. -/
theorem c4_idempotent_delete :
    (∀ (env₁ env₂ : EC2Env) (vpceID sgID : GoString) (e₁ e₂ : AwsErr),
        env₁.modifyVpcEndpointRemove vpceID sgID = some e₁ →
        e₁.code ∈ vpceDeleteTolerated →
        env₂.modifyVpcEndpointRemove vpceID sgID = some e₂ →
        e₂.code ∈ vpceDeleteTolerated →
        (deleteVPCEndpointSecurityGroupAssociation env₁ vpceID sgID).1 = none
        ∧ (deleteVPCEndpointSecurityGroupAssociation env₂ vpceID sgID).1 = none)
    ∧ ∀ (id artifactId productId : GoString) (e₁ e₂ : AwsErr)
        (w₁ w₂ : Option AwsErr),
        ProvisioningArtifactParseID id = .ok (artifactId, productId) →
        e₁.code = ErrCodeResourceNotFoundException →
        e₂.code = ErrCodeResourceNotFoundException →
        resourceProvisioningArtifactDelete id (some e₁) w₁ = []
        ∧ resourceProvisioningArtifactDelete id (some e₂) w₂ = [] := by
  constructor
  · intro env₁ env₂ vpceID sgID e₁ e₂ h₁ t₁ h₂ t₂
    constructor
    · simp [deleteVPCEndpointSecurityGroupAssociation, h₁, t₁]
    · simp [deleteVPCEndpointSecurityGroupAssociation, h₂, t₂]
  · intro id artifactId productId e₁ e₂ w₁ w₂ hparse he₁ he₂
    constructor
    · simp [resourceProvisioningArtifactDelete, hparse, he₁]
    · simp [resourceProvisioningArtifactDelete, hparse, he₂]

/-- Environment of the C4 witness: the remove mutation reports the group
association already gone. -/
def envW4 : EC2Env :=
  ⟨fun _ => .ok ⟨goStr "vpc-1", []⟩,
   fun _ => .ok (goStr "sg-default"),
   fun _ _ => none,
   fun _ _ => some ⟨errCodeInvalidGroupNotFound, goStr "group gone"⟩,
   fun _ _ => none⟩

/-- C4 witness: deleting the already-absent association and the
already-absent provisioning artifact succeeds, twice each. -/
theorem c4_idempotent_delete_w :
    ((deleteVPCEndpointSecurityGroupAssociation envW4 (goStr "vpce-1")
        (goStr "sg-2")).1 = none
      ∧ (deleteVPCEndpointSecurityGroupAssociation envW4 (goStr "vpce-1")
        (goStr "sg-2")).1 = none)
    ∧ resourceProvisioningArtifactDelete (goStr "pa-1:prod-1")
        (some ⟨ErrCodeResourceNotFoundException, goStr "gone"⟩) none = []
    ∧ resourceProvisioningArtifactDelete (goStr "pa-1:prod-1")
        (some ⟨ErrCodeResourceNotFoundException, goStr "gone"⟩) none = [] :=
  ⟨c4_idempotent_delete.1 envW4 envW4 (goStr "vpce-1") (goStr "sg-2")
      ⟨errCodeInvalidGroupNotFound, goStr "group gone"⟩
      ⟨errCodeInvalidGroupNotFound, goStr "group gone"⟩
      rfl (by decide) rfl (by decide),
   c4_idempotent_delete.2 (goStr "pa-1:prod-1") (goStr "pa-1") (goStr "prod-1")
      ⟨ErrCodeResourceNotFoundException, goStr "gone"⟩
      ⟨ErrCodeResourceNotFoundException, goStr "gone"⟩
      none none (by rfl) rfl rfl⟩

/-- C5: when the bounded-retry phase of the provisioning-artifact create or
update exhausts its budget with a timeout (trace `t`), exactly one
additional direct remote invocation is performed (index `fuel + 1`, the one
attempt past the `fuel + 1` attempts of the retry phase), and the
operation's final result is that last attempt's raw result rather than the
bare timeout; in particular a succeeding final attempt makes the update
succeed with the read's diagnostics. -/
theorem c5_retry_then_one_direct
    (callsC : Nat → Except AwsErr (Option CreateProvisioningArtifactOutput))
    (callsU : Nat → Except AwsErr Unit) (fuelC fuelU : Nat)
    (tC tU : List Nat)
    (hC : retryPhase callsC provisioningArtifactRetryable fuelC 0
      = (.timedOut, tC))
    (hU : retryPhase callsU provisioningArtifactRetryable fuelU 0
      = (.timedOut, tU)) :
    retryThenDirect callsC provisioningArtifactRetryable fuelC
        = (callsC (fuelC + 1), tC ++ [fuelC + 1])
    ∧ retryThenDirect callsU provisioningArtifactRetryable fuelU
        = (callsU (fuelU + 1), tU ++ [fuelU + 1])
    ∧ ∀ (id : GoString) (d : PAData) (rd : List PADiag)
        (artifactId productId : GoString),
        ProvisioningArtifactParseID id = .ok (artifactId, productId) →
        callsU (fuelU + 1) = .ok () →
        resourceProvisioningArtifactUpdate true id d callsU fuelU rd
          = ⟨rd, (tU ++ [fuelU + 1]).map
              fun _ => buildPAUpdateInput productId artifactId d⟩ := by
  have hlenC : tC.length = fuelC + 1 := by
    rw [retryPhase_timedOut_trace callsC provisioningArtifactRetryable
      fuelC 0 tC hC]
    simp
  have hlenU : tU.length = fuelU + 1 := by
    rw [retryPhase_timedOut_trace callsU provisioningArtifactRetryable
      fuelU 0 tU hU]
    simp
  have hrtC : retryThenDirect callsC provisioningArtifactRetryable fuelC
      = (callsC (fuelC + 1), tC ++ [fuelC + 1]) := by
    unfold retryThenDirect
    rw [hC]
    simp [hlenC]
  have hrtU : retryThenDirect callsU provisioningArtifactRetryable fuelU
      = (callsU (fuelU + 1), tU ++ [fuelU + 1]) := by
    unfold retryThenDirect
    rw [hU]
    simp [hlenU]
  refine ⟨hrtC, hrtU, ?_⟩
  intro id d rd artifactId productId hparse hok
  unfold resourceProvisioningArtifactUpdate
  simp only [if_true, hparse, hrtU, hok]

/-- The retryable error of the C5 and C10 witnesses. -/
def profileErrW : AwsErr :=
  ⟨ErrCodeInvalidParametersException, goStr "the profile does not exist"⟩

/-- Create-call responses of the C5 witness: three retryable failures, then
success. -/
def callsCW : Nat → Except AwsErr (Option CreateProvisioningArtifactOutput) :=
  fun n => if n < 3 then .error profileErrW else .ok (some ⟨some ⟨some (goStr "pa-1")⟩⟩)

/-- Update-call responses of the C5 witness: two retryable failures, then
success. -/
def callsUW : Nat → Except AwsErr Unit :=
  fun n => if n < 2 then .error profileErrW else .ok ()

/-- C5 witness: with retry budgets exhausted, the one extra direct call is
issued and its (successful) result is the final one. -/
theorem c5_retry_then_one_direct_w :
    retryThenDirect callsCW provisioningArtifactRetryable 2
        = (callsCW 3, [0, 1, 2] ++ [3])
    ∧ retryThenDirect callsUW provisioningArtifactRetryable 1
        = (callsUW 2, [0, 1] ++ [2])
    ∧ resourceProvisioningArtifactUpdate true (goStr "pa-1:prod-1") paDataW
        callsUW 1 []
      = ⟨[], ([0, 1] ++ [2]).map
          fun _ => buildPAUpdateInput (goStr "prod-1") (goStr "pa-1") paDataW⟩ :=
  ⟨(c5_retry_then_one_direct callsCW callsUW 2 1 [0, 1, 2] [0, 1]
      (by decide) (by decide)).1,
   (c5_retry_then_one_direct callsCW callsUW 2 1 [0, 1, 2] [0, 1]
      (by decide) (by decide)).2.1,
   (c5_retry_then_one_direct callsCW callsUW 2 1 [0, 1, 2] [0, 1]
      (by decide) (by decide)).2.2 (goStr "pa-1:prod-1") paDataW []
     (goStr "pa-1") (goStr "prod-1") (by rfl) (by rfl)⟩

/-- C10: when the remote create call succeeds but the response is nil, or
lacks the detail or its id, create returns the empty-response error without
setting a resource identifier. -/
theorem c10_empty_response
    (createCalls : Nat → Except AwsErr (Option CreateProvisioningArtifactOutput))
    (fuel : Nat) (productID : GoString) (update : GoString → List PADiag)
    (out : Option CreateProvisioningArtifactOutput)
    (hok : (retryThenDirect createCalls provisioningArtifactRetryable
      fuel).1 = .ok out)
    (hmiss : out = none
      ∨ ∃ o, out = some o ∧ (o.provisioningArtifactDetail = none
          ∨ ∃ det, o.provisioningArtifactDetail = some det ∧ det.id = none)) :
    resourceProvisioningArtifactCreate createCalls fuel productID update
      = ⟨none, [.emptyResponse]⟩ := by
  unfold resourceProvisioningArtifactCreate
  rw [hok]
  rcases hmiss with rfl | ⟨o, rfl, hdet⟩
  · rfl
  · rcases hdet with hdet | ⟨det, hdet, hid⟩
    · simp [hdet]
    · simp [hdet, hid]

/-- C10 witness: a nil create response (after one retryable failure and the
final direct attempt) yields the empty-response error and no identifier. -/
theorem c10_empty_response_w :
    resourceProvisioningArtifactCreate (fun _ => .ok none) 0 (goStr "prod-1")
        (fun _ => []) = ⟨none, [.emptyResponse]⟩ :=
  c10_empty_response (fun _ => .ok none) 0 (goStr "prod-1") (fun _ => [])
    none (by rfl) (Or.inl rfl)
